import Mathlib

/-!
Shallow embedding of the size-targeting encode pipeline of src/App.tsx
(the core of the resize_img repository), together with proofs of the
specification's claims about it.

The embedded code is the `processImage` callback (src/App.tsx, lines 48-119):
  * configuration constants (lines 11-15);
  * raster normalization onto a 295 x 413 canvas (lines 61-71);
  * the baseline maximum-quality JPEG encode followed by exact-byte padding
    with filler bytes `i % 255` (lines 82-107);
  * the all-or-nothing error handling of the surrounding try/catch
    (lines 53-118).

Bytes are modelled as natural numbers, byte sequences as `List Nat`,
and pixel rasters as functions from coordinates to a colour value.
-/

/-- Configuration constant `TARGET_WIDTH` (src/App.tsx line 11). -/
def TARGET_WIDTH : Nat := 295

/-- Configuration constant `TARGET_HEIGHT` (src/App.tsx line 12). -/
def TARGET_HEIGHT : Nat := 413

/-- Configuration constant `MIN_KB` (src/App.tsx line 13). -/
def MIN_KB : Nat := 150

/-- Configuration constant `MAX_KB` (src/App.tsx line 14). -/
def MAX_KB : Nat := 250

/-- Configuration constant `PREFERRED_KB` (src/App.tsx line 15). -/
def PREFERRED_KB : Nat := 200

/-- The byte target computed at src/App.tsx line 88:
`const targetSizeInBytes = PREFERRED_KB * 1024`. -/
def targetSizeInBytes : Nat := PREFERRED_KB * 1024

/-- One filler byte: the loop body at src/App.tsx line 102 stores
`i % 255` at absolute offset `i` of the padded buffer. -/
def fillerByte (i : Nat) : Nat := i % 255

/-- The filler region written by the loop at src/App.tsx lines 101-103:
`len` bytes whose element at relative position `k` sits at absolute offset
`start + k` of the padded buffer and therefore holds `(start + k) % 255`. -/
def paddingBytes (start len : Nat) : List Nat :=
  (List.range len).map (fun k => fillerByte (start + k))

/-- The size-targeting step of `processImage` (src/App.tsx lines 88-107):
given the baseline encode bytes, if their length is below
`targetSizeInBytes` append `paddingSize = targetSizeInBytes - length`
filler bytes (the guard `paddingSize > 0` mirrors line 95); otherwise
return the baseline encode unchanged. -/
def sizeTargetEncode (baseline : List Nat) : List Nat :=
  if baseline.length < targetSizeInBytes then
    let paddingSize := targetSizeInBytes - baseline.length
    if 0 < paddingSize then
      baseline ++ paddingBytes baseline.length paddingSize
    else
      baseline
  else
    baseline

/-- A decoded source image of arbitrary dimensions (the `img` element
loaded at src/App.tsx lines 54-59). -/
structure SourceImage where
  width : Nat
  height : Nat
  pixel : Nat → Nat → Nat

/-- A 2D canvas raster: dimensions plus a pixel map. -/
structure Canvas where
  width : Nat
  height : Nat
  pixel : Nat → Nat → Nat

/-- Opaque white, the fill colour `#FFFFFF` set at src/App.tsx line 69,
encoded as RGBA. -/
def white : Nat := 0xFFFFFFFF

/-- A freshly created canvas of the given dimensions
(src/App.tsx lines 61-63); pixels default to transparent black. -/
def createCanvas (w h : Nat) : Canvas :=
  { width := w, height := h, pixel := fun _ _ => 0 }

/-- The `ctx.fillRect(x, y, w, h)` operation (src/App.tsx line 70):
every pixel inside the rectangle takes the fill colour, pixels outside
are unchanged. -/
def fillRect (c : Canvas) (x y w h color : Nat) : Canvas :=
  { width := c.width, height := c.height,
    pixel := fun px py =>
      if x ≤ px ∧ px < x + w ∧ y ≤ py ∧ py < y + h then color
      else c.pixel px py }

/-- Sampling of the source stretched anisotropically onto a `dw × dh`
destination rectangle, modelling the scaling performed by the canvas
`drawImage` call at src/App.tsx line 71: destination coordinate `x` reads
from source column `x * width / dw`, and likewise for rows, so the full
source is mapped onto the destination with no cropping or letterboxing. -/
def stretchSample (img : SourceImage) (dw dh x y : Nat) : Nat :=
  img.pixel (x * img.width / dw) (y * img.height / dh)

/-- The `ctx.drawImage(img, dx, dy, dw, dh)` operation
(src/App.tsx line 71): pixels inside the destination rectangle take the
stretched source sample, pixels outside are unchanged. -/
def drawImage (c : Canvas) (img : SourceImage) (dx dy dw dh : Nat) : Canvas :=
  { width := c.width, height := c.height,
    pixel := fun px py =>
      if dx ≤ px ∧ px < dx + dw ∧ dy ≤ py ∧ py < dy + dh then
        stretchSample img dw dh (px - dx) (py - dy)
      else c.pixel px py }

/-- The raster normalizer (src/App.tsx lines 61-71): allocate a canvas of
the target dimensions, fill it entirely with opaque white, then draw the
source stretched over the whole canvas from the origin. -/
def normalizeRaster (img : SourceImage) : Canvas :=
  drawImage
    (fillRect (createCanvas TARGET_WIDTH TARGET_HEIGHT)
      0 0 TARGET_WIDTH TARGET_HEIGHT white)
    img 0 0 TARGET_WIDTH TARGET_HEIGHT

/-- The distinct failure causes raised inside the try block of
`processImage`: the image load `onerror` rejection (line 58), the
`Canvas context failed` throw (line 66), and the
`Blob generation failed` throw (line 84). -/
inductive PipelineError where
  | decodeFailed
  | canvasContextFailed
  | blobGenerationFailed
deriving DecidableEq

/-- The component state `processImage` leaves behind: `processedImage`
(the artifact handed to the download collaborator) and `error`
(the failure banner), src/App.tsx lines 109-115. -/
structure UIState where
  processedImage : Option (List Nat)
  error : Option String
deriving DecidableEq

/-- The generic failure message set by the catch block at
src/App.tsx line 114, regardless of the underlying cause. -/
def genericFailureMessage : String := "处理图像时出错，请重试。"

/-- The try block of `processImage` (src/App.tsx lines 53-112): decode the
source, obtain a 2D context, materialize the baseline encode blob, then run
the size-targeting step. Each stage's success is an input of the model
(these stages are external browser calls); the first failing stage aborts
the whole invocation with its error. -/
def runPipeline (decodeOk ctxOk : Bool) (blobResult : Option (List Nat)) :
    Except PipelineError (List Nat) :=
  if !decodeOk then .error .decodeFailed
  else if !ctxOk then .error .canvasContextFailed
  else
    match blobResult with
    | none => .error .blobGenerationFailed
    | some bytes => .ok (sizeTargetEncode bytes)

/-- The whole `processImage` invocation including its catch block
(src/App.tsx lines 48-119): on success the complete artifact is published
and no error is set; on any failure no artifact is published and the single
generic failure message is set. No retry occurs: the function runs the
pipeline exactly once. -/
def processImage (decodeOk ctxOk : Bool) (blobResult : Option (List Nat)) :
    UIState :=
  match runPipeline decodeOk ctxOk blobResult with
  | .ok a => { processedImage := some a, error := none }
  | .error _ => { processedImage := none, error := some genericFailureMessage }

/-! ## Helper lemmas about the embedded definitions -/

theorem length_paddingBytes (start len : Nat) :
    (paddingBytes start len).length = len := by
  simp [paddingBytes]

theorem paddingBytes_getElem? (start len k : Nat) (h : k < len) :
    (paddingBytes start len)[k]? = some ((start + k) % 255) := by
  simp [paddingBytes, fillerByte, List.getElem?_map, List.getElem?_range, h]

theorem mem_paddingBytes (start len k : Nat) (h : k < len) :
    (start + k) % 255 ∈ paddingBytes start len := by
  exact List.mem_map.mpr ⟨k, List.mem_range.mpr h, rfl⟩

theorem sizeTargetEncode_of_lt (b : List Nat)
    (h : b.length < targetSizeInBytes) :
    sizeTargetEncode b =
      b ++ paddingBytes b.length (targetSizeInBytes - b.length) := by
  have hp : 0 < targetSizeInBytes - b.length := Nat.sub_pos_of_lt h
  simp [sizeTargetEncode, h, hp]

theorem sizeTargetEncode_of_ge (b : List Nat)
    (h : targetSizeInBytes ≤ b.length) :
    sizeTargetEncode b = b := by
  simp [sizeTargetEncode, Nat.not_lt.mpr h]

theorem drop_sizeTargetEncode (b : List Nat)
    (h : b.length < targetSizeInBytes) :
    (sizeTargetEncode b).drop b.length =
      paddingBytes b.length (targetSizeInBytes - b.length) := by
  rw [sizeTargetEncode_of_lt b h, List.drop_left]

theorem padding_mem_two_distinct (b : List Nat)
    (h : b.length < targetSizeInBytes)
    (h2 : 2 ≤ targetSizeInBytes - b.length) :
    ∃ x ∈ (sizeTargetEncode b).drop b.length,
      ∃ y ∈ (sizeTargetEncode b).drop b.length, x ≠ y := by
  rw [drop_sizeTargetEncode b h]
  refine ⟨(b.length + 0) % 255, mem_paddingBytes _ _ 0 (by omega),
          (b.length + 1) % 255, mem_paddingBytes _ _ 1 (by omega), ?_⟩
  omega

/-! ## Claim C1: exact hit on the preferred size -/

/-- C1: for every baseline encode of length strictly below
`targetSizeInBytes` (200 * 1024 bytes), the produced artifact's total byte
length exactly equals `targetSizeInBytes`, that is, the baseline length
plus `targetSizeInBytes - length` padding bytes. -/
theorem exact_hit_total_length (b : List Nat)
    (h : b.length < targetSizeInBytes) :
    (sizeTargetEncode b).length = targetSizeInBytes ∧
    (sizeTargetEncode b).length =
      b.length + (targetSizeInBytes - b.length) := by
  rw [sizeTargetEncode_of_lt b h]
  simp [length_paddingBytes]
  omega

/-- Witness for C1 at the empty baseline encode. -/
theorem exact_hit_total_length_witness :
    (sizeTargetEncode []).length = targetSizeInBytes ∧
    (sizeTargetEncode []).length =
      (List.length ([] : List Nat)) + (targetSizeInBytes -
        (List.length ([] : List Nat))) :=
  exact_hit_total_length [] (by decide)

/-! ## Claim C2: passthrough when the baseline is already large enough -/

/-- C2: for every baseline encode of length at least `targetSizeInBytes`
(including equality), the emitted artifact is the baseline byte sequence
unmodified, so its length equals the baseline length and zero padding
bytes are appended. -/
theorem passthrough_of_ge (b : List Nat)
    (h : targetSizeInBytes ≤ b.length) :
    sizeTargetEncode b = b ∧ (sizeTargetEncode b).length = b.length := by
  refine ⟨sizeTargetEncode_of_ge b h, ?_⟩
  rw [sizeTargetEncode_of_ge b h]

/-- Witness for C2 at the boundary case: a baseline of length exactly
`targetSizeInBytes`. -/
theorem passthrough_of_ge_witness :
    sizeTargetEncode (List.replicate targetSizeInBytes 0) =
      List.replicate targetSizeInBytes 0 ∧
    (sizeTargetEncode (List.replicate targetSizeInBytes 0)).length =
      (List.replicate targetSizeInBytes (0 : Nat)).length :=
  passthrough_of_ge (List.replicate targetSizeInBytes 0) (by simp)

/-! ## Claim C3: baseline prefix preserved, filler appended -/

/-- C3: for every baseline encode of length strictly below
`targetSizeInBytes`, the first `length` bytes of the artifact are exactly
the baseline bytes and the trailing `targetSizeInBytes - length` bytes are
the filler region appended after the compressed stream. -/
theorem baseline_prefix_then_filler (b : List Nat)
    (h : b.length < targetSizeInBytes) :
    (sizeTargetEncode b).take b.length = b ∧
    (sizeTargetEncode b).drop b.length =
      paddingBytes b.length (targetSizeInBytes - b.length) := by
  refine ⟨?_, drop_sizeTargetEncode b h⟩
  rw [sizeTargetEncode_of_lt b h, List.take_left]

/-- Witness for C3 at a one-byte baseline encode. -/
theorem baseline_prefix_then_filler_witness :
    (sizeTargetEncode [7]).take (List.length [(7 : Nat)]) = [7] ∧
    (sizeTargetEncode [7]).drop (List.length [(7 : Nat)]) =
      paddingBytes (List.length [(7 : Nat)])
        (targetSizeInBytes - List.length [(7 : Nat)]) :=
  baseline_prefix_then_filler [7] (by decide)

/-! ## Claim C4: the filler generation rule (corrected) -/

/-- Counterexample to C4 as stated: a baseline encode of length 204799
(one byte short of the target) gets a padding region that is a single
byte, value `204799 % 255 = 34`, so the filler there does consist of one
repeated byte value, contradicting the unqualified "never all-identical"
part of the claim. -/
theorem padding_singleton_all_identical :
    (List.replicate 204799 (0 : Nat)).length < targetSizeInBytes ∧
    (sizeTargetEncode (List.replicate 204799 (0 : Nat))).drop
      (List.replicate 204799 (0 : Nat)).length = [34] ∧
    ∀ x ∈ (sizeTargetEncode (List.replicate 204799 (0 : Nat))).drop
      (List.replicate 204799 (0 : Nat)).length, x = 34 := by
  have h : (List.replicate 204799 (0 : Nat)).length < targetSizeInBytes := by
    rw [List.length_replicate]; decide
  have hdrop : (sizeTargetEncode (List.replicate 204799 (0 : Nat))).drop
      (List.replicate 204799 (0 : Nat)).length = [34] := by
    rw [drop_sizeTargetEncode _ h, List.length_replicate]
    decide
  refine ⟨h, hdrop, ?_⟩
  rw [hdrop]
  decide

/-- C4 amended: for every baseline encode of length strictly below
`targetSizeInBytes`, the artifact byte at every absolute offset `i` in the
padding region equals `i % 255`; the padding region is never all-zero; and
it contains two distinct byte values whenever its length is at least 2
(a padding of length exactly 1 is unavoidably a single byte). -/
theorem filler_rule_amended (b : List Nat)
    (h : b.length < targetSizeInBytes) :
    (∀ i, b.length ≤ i → i < targetSizeInBytes →
      (sizeTargetEncode b)[i]? = some (i % 255)) ∧
    (¬ ∀ x ∈ (sizeTargetEncode b).drop b.length, x = 0) ∧
    (2 ≤ targetSizeInBytes - b.length →
      ∃ x ∈ (sizeTargetEncode b).drop b.length,
        ∃ y ∈ (sizeTargetEncode b).drop b.length, x ≠ y) := by
  have ht : targetSizeInBytes = 204800 := rfl
  refine ⟨?_, ?_, padding_mem_two_distinct b h⟩
  · intro i hi hlt
    rw [sizeTargetEncode_of_lt b h, List.getElem?_append_right hi,
      paddingBytes_getElem? _ _ _ (by omega)]
    have hv : b.length + (i - b.length) = i := by omega
    rw [hv]
  · intro hall
    rw [drop_sizeTargetEncode b h] at hall
    have h0 : b.length % 255 = 0 := by
      have := hall _ (mem_paddingBytes b.length _ 0 (by omega))
      simpa using this
    have h1 : (b.length + 1) % 255 = 0 := by
      refine hall _ (mem_paddingBytes b.length _ 1 ?_)
      omega
    omega

/-- Witness for the amended C4: the artifact for the empty baseline has
byte `0 % 255` at offset 0. -/
theorem filler_rule_amended_witness :
    (sizeTargetEncode [])[0]? = some (0 % 255) :=
  (filler_rule_amended [] (by decide)).1 0 (by decide) (by decide)

/-! ## Claim C5: non-degenerate filler -/

/-- C5: for every padded artifact whose padding length is at least 2, the
padding region contains at least two distinct byte values. -/
theorem padding_two_distinct_values (b : List Nat)
    (h : b.length < targetSizeInBytes)
    (h2 : 2 ≤ targetSizeInBytes - b.length) :
    ∃ x ∈ (sizeTargetEncode b).drop b.length,
      ∃ y ∈ (sizeTargetEncode b).drop b.length, x ≠ y :=
  padding_mem_two_distinct b h h2

/-- Witness for C5 at the empty baseline encode. -/
theorem padding_two_distinct_values_witness :
    ∃ x ∈ (sizeTargetEncode []).drop (List.length ([] : List Nat)),
      ∃ y ∈ (sizeTargetEncode []).drop (List.length ([] : List Nat)),
        x ≠ y :=
  padding_two_distinct_values [] (by decide) (by decide)

/-! ## Claim C10: no 0xFF byte in the padding region -/

/-- C10: every filler byte lies in the range 0..254; the value 255 never
occurs in the padding region, because each filler byte is an offset
reduced modulo 255 rather than modulo 256. -/
theorem filler_bytes_lt_255 (b : List Nat)
    (h : b.length < targetSizeInBytes) :
    ∀ x ∈ (sizeTargetEncode b).drop b.length, x < 255 := by
  rw [drop_sizeTargetEncode b h]
  intro x hx
  rcases List.mem_map.mp hx with ⟨k, hk, rfl⟩
  simp only [fillerByte]
  omega

/-- Witness for C10: byte 0 of the padding of the empty baseline is 0,
and the theorem bounds it below 255. -/
theorem filler_bytes_lt_255_witness : (0 : Nat) < 255 := by
  have h : (List.length ([] : List Nat)) < targetSizeInBytes := by decide
  have hmem : (0 : Nat) ∈
      (sizeTargetEncode []).drop (List.length ([] : List Nat)) := by
    rw [drop_sizeTargetEncode [] h]
    simpa using mem_paddingBytes (List.length ([] : List Nat))
      (targetSizeInBytes - List.length ([] : List Nat)) 0 (by decide)
  exact filler_bytes_lt_255 [] h 0 hmem

/-! ## Claim C6: the raster normalizer -/

/-- C6: for every decoded source image, the normalizer produces a raster of
exactly `TARGET_WIDTH x TARGET_HEIGHT` pixels; the canvas is first filled
entirely with opaque white; and every pixel of the result is the source
sampled through the anisotropic stretch that maps the full source onto the
whole canvas from the origin, so nothing is cropped or letterboxed. -/
theorem normalizeRaster_dims_and_stretch (img : SourceImage) :
    (normalizeRaster img).width = TARGET_WIDTH ∧
    (normalizeRaster img).height = TARGET_HEIGHT ∧
    (∀ x y, x < TARGET_WIDTH → y < TARGET_HEIGHT →
      (fillRect (createCanvas TARGET_WIDTH TARGET_HEIGHT)
        0 0 TARGET_WIDTH TARGET_HEIGHT white).pixel x y = white) ∧
    (∀ x y, x < TARGET_WIDTH → y < TARGET_HEIGHT →
      (normalizeRaster img).pixel x y =
        stretchSample img TARGET_WIDTH TARGET_HEIGHT x y) := by
  refine ⟨rfl, rfl, ?_, ?_⟩
  · intro x y hx hy
    simp only [fillRect, createCanvas]
    rw [if_pos ⟨Nat.zero_le x, by omega, Nat.zero_le y, by omega⟩]
  · intro x y hx hy
    simp only [normalizeRaster, drawImage]
    rw [if_pos ⟨Nat.zero_le x, by omega, Nat.zero_le y, by omega⟩]
    simp

/-- Witness for C6 at a concrete 2 x 3 source image and pixel (0, 0). -/
theorem normalizeRaster_dims_and_stretch_witness :
    (normalizeRaster ⟨2, 3, fun _ _ => 5⟩).pixel 0 0 =
      stretchSample ⟨2, 3, fun _ _ => 5⟩ TARGET_WIDTH TARGET_HEIGHT 0 0 :=
  (normalizeRaster_dims_and_stretch ⟨2, 3, fun _ _ => 5⟩).2.2.2 0 0
    (by decide) (by decide)

/-! ## Claim C7: determinism of the size-targeting encoder -/

/-- C7: the stage after the baseline encode is a deterministic function of
the baseline bytes and the configuration constants: two runs on equal
baseline byte sequences yield byte-identical artifacts. -/
theorem encode_deterministic (b1 b2 : List Nat) (h : b1 = b2) :
    sizeTargetEncode b1 = sizeTargetEncode b2 := by
  rw [h]

/-- Witness for C7 at a concrete baseline encode. -/
theorem encode_deterministic_witness :
    sizeTargetEncode [1, 2, 3] = sizeTargetEncode [1, 2, 3] :=
  encode_deterministic [1, 2, 3] [1, 2, 3] rfl

/-! ## Claim C8: the min and max bounds are informational only -/

/-- C8: the encoder is a total function with no check against `MIN_KB` or
`MAX_KB`: when the baseline encode is longer than `MAX_KB * 1024` bytes it
is still emitted unmodified, producing an artifact whose length exceeds
the maximum bound, and no error is raised. -/
theorem bounds_not_enforced (b : List Nat)
    (h : MAX_KB * 1024 < b.length) :
    sizeTargetEncode b = b ∧
    MAX_KB * 1024 < (sizeTargetEncode b).length := by
  have hge : targetSizeInBytes ≤ b.length := by
    have h1 : targetSizeInBytes = 204800 := rfl
    have h2 : MAX_KB * 1024 = 256000 := rfl
    omega
  refine ⟨sizeTargetEncode_of_ge b hge, ?_⟩
  rw [sizeTargetEncode_of_ge b hge]
  exact h

/-- Witness for C8 at a baseline one byte longer than the maximum bound. -/
theorem bounds_not_enforced_witness :
    sizeTargetEncode (List.replicate (MAX_KB * 1024 + 1) 0) =
      List.replicate (MAX_KB * 1024 + 1) 0 ∧
    MAX_KB * 1024 <
      (sizeTargetEncode (List.replicate (MAX_KB * 1024 + 1) 0)).length :=
  bounds_not_enforced (List.replicate (MAX_KB * 1024 + 1) 0)
    (by rw [List.length_replicate]; omega)

/-! ## Claim C9: all-or-nothing error handling -/

/-- C9: the invocation is all-or-nothing: if any stage fails (decode,
render context, or blob generation) no artifact is published and the
single generic failure message is surfaced; if every stage succeeds the
complete artifact is published and no error is set. There is no partial
success and the pipeline body runs exactly once per invocation. -/
theorem pipeline_all_or_nothing (decodeOk ctxOk : Bool)
    (blobResult : Option (List Nat)) :
    (decodeOk = false ∨ ctxOk = false ∨ blobResult = none →
      processImage decodeOk ctxOk blobResult =
        { processedImage := none, error := some genericFailureMessage }) ∧
    (∀ bytes, decodeOk = true → ctxOk = true → blobResult = some bytes →
      processImage decodeOk ctxOk blobResult =
        { processedImage := some (sizeTargetEncode bytes),
          error := none }) := by
  constructor
  · intro hfail
    rcases hfail with hd | hc | hb
    · subst hd
      simp [processImage, runPipeline]
    · subst hc
      cases decodeOk <;> simp [processImage, runPipeline]
    · subst hb
      cases decodeOk <;> cases ctxOk <;> simp [processImage, runPipeline]
  · intro bytes hd hc hb
    subst hd
    subst hc
    subst hb
    simp [processImage, runPipeline]

/-- Witness for C9: a decode failure publishes no artifact and sets the
generic failure message. -/
theorem pipeline_all_or_nothing_witness :
    processImage false true (some []) =
      { processedImage := none, error := some genericFailureMessage } :=
  (pipeline_all_or_nothing false true (some [])).1 (Or.inl rfl)
